import Mathlib

/-!
Verification of the CDC core of the conduit-connector-sap-hana repository.

The Go sources are shallowly embedded: maps scanned from database rows become
association lists of JSON-like values, fallible Go functions become `Except`,
the SQL issued by an iterator is modelled as a pure query over an in-memory
list of rows, and the background/transactional effects are modelled by an
explicit outcome oracle.  Each definition's doc comment names the Go function
it embeds.
-/

set_option autoImplicit false

namespace SapHana

/-- A JSON-compatible dynamic value, modelling Go `any` values that travel
through row maps, payloads and positions.  `jBytes` models a `[]byte` value
(with its content as a string), which Go JSON and the driver treat
differently from `string`. -/
inductive JValue where
  | jNull
  | jBool (b : Bool)
  | jInt (i : Int)
  | jStr (s : String)
  | jBytes (b : String)
  deriving DecidableEq, Repr

/-- A row map (`map[string]any` in Go) as an association list. -/
def Row := List (String × JValue)
  deriving DecidableEq, Repr

/-- Lookup of a key in a row map. -/
def Row.lookup (r : Row) (k : String) : Option JValue :=
  List.lookup k r

/-- Go's `delete(row, k)` on a row map. -/
def Row.eraseKey : Row → String → Row
  | [], _ => []
  | p :: rest, k => if p.1 = k then Row.eraseKey rest k else p :: Row.eraseKey rest k

theorem Row.lookup_eraseKey_self (r : Row) (k : String) :
    (r.eraseKey k).lookup k = none := by
  induction r with
  | nil => rfl
  | cons p rest ih =>
      by_cases h : p.1 = k
      · simp only [Row.eraseKey, if_pos h]
        exact ih
      · have hk : (k == p.1) = false := by simp [Ne.symm h]
        simp only [Row.eraseKey, if_neg h, Row.lookup, List.lookup, hk]
        exact ih

theorem Row.lookup_eraseKey_ne (r : Row) (k k' : String) (h : k' ≠ k) :
    (r.eraseKey k).lookup k' = r.lookup k' := by
  induction r with
  | nil => rfl
  | cons p rest ih =>
      by_cases hp : p.1 = k
      · have hne : k' ≠ p.1 := fun e => h (e.trans hp)
        have hb : (k' == p.1) = false := by simp [hne]
        simp only [Row.eraseKey, if_pos hp, Row.lookup, List.lookup, hb]
        exact ih
      · simp only [Row.eraseKey, if_neg hp, Row.lookup, List.lookup]
        by_cases hkk : k' = p.1
        · simp [hkk]
        · have hb : (k' == p.1) = false := by simp [hkk]
          simp only [hb]
          exact ih

/-! ## Position codec (source/position/position.go) -/

namespace Position

/-- `position.TypeSnapshot`. -/
def TypeSnapshot : String := "s"

/-- `position.TypeCDC`. -/
def TypeCDC : String := "c"

end Position

/-- `position.Position`: the resumable position struct.  The two
`any`-typed snapshot fields hold JSON values. -/
structure Position where
  iteratorType : String
  snapshotLastProcessedVal : JValue
  snapshotMaxValue : JValue
  cdcLastID : Int
  trackingTableName : String
  deriving DecidableEq, Repr

/-- A serialized position token.  `json.Marshal` of `position.Position`
produces a JSON object with the five exported fields; the object is
modelled as an association list of field name to JSON value. -/
def PosToken := List (String × JValue)
  deriving DecidableEq, Repr

/-- Errors of the position package (`source/position`). -/
inductive PosErr where
  | unknownIteratorType (tag : String)
  | unmarshalErr
  deriving DecidableEq, Repr

/-- `Position.ConvertToSDKPosition`: `json.Marshal` of the struct records
every exported field under its name. -/
def Position.convertToSDKPosition (p : Position) : PosToken :=
  [ ("IteratorType", JValue.jStr p.iteratorType),
    ("SnapshotLastProcessedVal", p.snapshotLastProcessedVal),
    ("SnapshotMaxValue", p.snapshotMaxValue),
    ("CDCLastID", JValue.jInt p.cdcLastID),
    ("TrackingTableName", JValue.jStr p.trackingTableName) ]

/-- Decoding of a `string`-typed struct field by `json.Unmarshal`: a missing
field keeps the zero value, a non-string JSON value is an unmarshal error. -/
def decodeStrField (t : PosToken) (k : String) : Except PosErr String :=
  match List.lookup k t with
  | none => .ok ""
  | some (JValue.jStr s) => .ok s
  | some _ => .error .unmarshalErr

/-- Decoding of an `int`-typed struct field by `json.Unmarshal`. -/
def decodeIntField (t : PosToken) (k : String) : Except PosErr Int :=
  match List.lookup k t with
  | none => .ok 0
  | some (JValue.jInt i) => .ok i
  | some _ => .error .unmarshalErr

/-- Decoding of an `any`-typed struct field by `json.Unmarshal`: any JSON
value is accepted, a missing field keeps the zero value (`nil`, i.e. JSON
null). -/
def decodeAnyField (t : PosToken) (k : String) : JValue :=
  match List.lookup k t with
  | none => JValue.jNull
  | some v => v

/-- `position.ParseSDKPosition`: a nil opaque position parses to a nil
position with a nil error; otherwise the token is unmarshalled and the
`IteratorType` tag must be `"s"` or `"c"`, else `ErrUnknownIteratorType`. -/
def parseSDKPosition (p : Option PosToken) : Except PosErr (Option Position) :=
  match p with
  | none => .ok none
  | some t => do
      let it ← decodeStrField t "IteratorType"
      let lastV := decodeAnyField t "SnapshotLastProcessedVal"
      let maxV := decodeAnyField t "SnapshotMaxValue"
      let cdcID ← decodeIntField t "CDCLastID"
      let tt ← decodeStrField t "TrackingTableName"
      let pos : Position :=
        { iteratorType := it
          snapshotLastProcessedVal := lastV
          snapshotMaxValue := maxV
          cdcLastID := cdcID
          trackingTableName := tt }
      if pos.iteratorType = Position.TypeSnapshot ∨ pos.iteratorType = Position.TypeCDC then
        .ok (some pos)
      else
        .error (.unknownIteratorType pos.iteratorType)

/-- Outcome of `CombinedIterator.Ack`.  `panicNilDeref` marks the execution
path on which the Go code reads the field `pos.IteratorType` through a nil
`*position.Position` pointer, which panics at runtime. -/
inductive AckOutcome where
  | ok
  | err (e : PosErr)
  | panicNilDeref
  deriving DecidableEq, Repr

/-- `CombinedIterator.Ack` (source/iterator/iterator.go): parse the opaque
position; return the parse error if any; otherwise compare
`pos.IteratorType` with `position.TypeCDC` — an unguarded field access on
the parsed pointer, which is nil exactly when the input position was nil —
and either route to the CDC child's `Ack` or no-op. -/
def combinedAck (rp : Option PosToken) : AckOutcome :=
  match parseSDKPosition rp with
  | .error e => .err e
  | .ok none => .panicNilDeref
  | .ok (some pos) =>
      if pos.iteratorType = Position.TypeCDC then .ok else .ok

/-! ## Decimal conversion (columntypes, `convertToDecimal` / `convertStrToDecimal`) -/

/-- Errors of the columntypes package used on the decimal path. -/
inductive DecErr where
  | invalidDecimalString
  | cannotConvertValueToDecimal
  | cannotConvertToInt
  | parseIntErr
  deriving DecidableEq, Repr

/-- The dynamic value handed to `convertToDecimal`, discriminated the way
`reflect.TypeOf(val).Kind()` discriminates it.  For the float kinds the
code immediately renders the value with `fmt.Sprintf("%g", val)`; the
model takes that rendered string as the constructor argument, keeping
floating point itself outside the embedding. -/
inductive DecInput where
  | goFloat (rendered : String)
  | goString (s : String)
  | goInt64 (i : Int)
  | goInt32 (i : Int)
  | goOther
  deriving DecidableEq, Repr

/-- `strings.Split` with a one-character separator (both call sites split
on `"."` or `"/"`). -/
def splitOnChar (sep : Char) : List Char → List (List Char)
  | [] => [[]]
  | c :: rest =>
      let r := splitOnChar sep rest
      if c = sep then [] :: r
      else
        match r with
        | [] => [[c]]
        | h :: t => (c :: h) :: t

/-- Largest `int64`. -/
def int64Max : Int := 9223372036854775807

/-- Smallest `int64`. -/
def int64Min : Int := -9223372036854775808

/-- Accumulate a base-10 digit string; `none` on a non-digit. -/
def digitsVal? (cs : List Char) : Option Nat :=
  cs.foldl
    (fun acc c =>
      match acc with
      | none => none
      | some n => if c.isDigit then some (n * 10 + (c.toNat - 48)) else none)
    (some 0)

/-- `strconv.ParseInt(s, 10, 64)`: optional sign, non-empty digit string,
64-bit range; `none` models the error return. -/
def parseInt64 (cs : List Char) : Option Int :=
  let signAndDigits : Bool × List Char :=
    match cs with
    | '+' :: rest => (false, rest)
    | '-' :: rest => (true, rest)
    | other => (false, other)
  if signAndDigits.2.isEmpty then none
  else
    match digitsVal? signAndDigits.2 with
    | none => none
    | some n =>
        let v : Int := if signAndDigits.1 then -(n : Int) else (n : Int)
        if int64Min ≤ v ∧ v ≤ int64Max then some v else none

/-- `big.NewRat(a, b)`: the exact rational `a/b` in lowest terms.  (Go
panics when `b = 0`; the model returns `0` there, a case none of the
theorems rely on.) -/
def bigNewRat (a b : Int) : ℚ := (a : ℚ) / (b : ℚ)

/-- `columntypes.convertStrToDecimal`: split on `"."`; a single part is
parsed as an integer `i/1`; parts `whole.fraction` become
`fullDigits / 10^len(fraction)` (the denominator `int64(math.Pow(10, n))`
is modelled as the exact power); more parts fail with
`ErrInvalidDecimalStringPresentation`. -/
def convertStrToDecimal (strVal : String) : Except DecErr ℚ :=
  match splitOnChar '.' strVal.data with
  | [p0] =>
      match parseInt64 p0 with
      | none => .error .parseIntErr
      | some i => .ok (bigNewRat i 1)
  | [p0, p1] =>
      match parseInt64 (p0 ++ p1) with
      | none => .error .parseIntErr
      | some ft => .ok (bigNewRat ft (10 ^ p1.length))
  | _ => .error .invalidDecimalString

/-- `columntypes.convertToDecimal`: dispatch on the reflected kind.
Floats go through the `%g` rendering to `convertStrToDecimal`; strings
with a dot go there too; strings with a slash are parsed as `num/den`;
other strings fall out of the switch to `ErrCannotConvertValueToDecimal`.
On the `Int64, Int32` branch the code runs the type assertion
`val.(int64)`, which fails for a dynamic `int32` value, so only `int64`
reaches `big.NewRat(intVal, 1)` and `int32` returns
`ErrCannotConvertToInt`. -/
def convertToDecimal (val : DecInput) : Except DecErr ℚ :=
  match val with
  | .goFloat rendered => convertStrToDecimal rendered
  | .goString s =>
      if s.data.contains '.' then convertStrToDecimal s
      else if s.data.contains '/' then
        match splitOnChar '/' s.data with
        | [p0, p1] =>
            match parseInt64 p0 with
            | none => .error .parseIntErr
            | some a =>
                match parseInt64 p1 with
                | none => .error .parseIntErr
                | some b => .ok (bigNewRat a b)
        | _ => .error .invalidDecimalString
      else .error .cannotConvertValueToDecimal
  | .goInt64 i => .ok (bigNewRat i 1)
  | .goInt32 _ => .error .cannotConvertToInt
  | .goOther => .error .cannotConvertValueToDecimal

/-- Claim C7 (code bug): the dotted-string, `num/den` and 64-bit integer
paths do produce the exact rationals the claim states, but a 32-bit
integer does not yield `i/1`: the `val.(int64)` type assertion fails for
an `int32` dynamic value and the conversion returns
`ErrCannotConvertToInt` — contradicting the repository's own decimal
destination test, which feeds `int32(103)` and expects the write to
succeed. -/
theorem convertToDecimal_int32_bug :
    convertToDecimal (.goInt64 103) = .ok ((103 : ℚ)) ∧
    convertToDecimal (.goString "103.6548") = .ok ((1036548 : ℚ) / 10000) ∧
    convertToDecimal (.goString "1036548/1000") = .ok ((1036548 : ℚ) / 1000) ∧
    convertToDecimal (.goInt32 103) = .error .cannotConvertToInt := by
  refine ⟨?_, ?_, ?_, rfl⟩
  · show Except.ok (bigNewRat 103 1) = _
    norm_num [bigNewRat]
  · show convertStrToDecimal "103.6548" = _
    rfl
  · rfl

/-! ## CDC iterator (source/iterator/cdc.go) -/

/-- `columnOperationType`, the tracking-table operation column. -/
def columnOperationType : String := "CONDUIT_OPERATION_TYPE"

/-- `columnTrackingID`, the tracking-table monotonic id column. -/
def columnTrackingID : String := "CONDUIT_TRACKING_ID"

/-- A forward-only `sqlx.Rows` cursor: `current` is the row `Next()` last
advanced to (read by `MapScan`), `pending` the rows not yet visited. -/
structure Cursor (α : Type) where
  current : Option α
  pending : List α
  deriving DecidableEq, Repr

/-- `rows.Next()`: advance to the next row, reporting whether one exists. -/
def Cursor.next {α : Type} (c : Cursor α) : Bool × Cursor α :=
  match c.pending with
  | [] => (false, { current := none, pending := [] })
  | r :: rs => (true, { current := some r, pending := rs })

/-- A journal (tracking-table) row: its `CONDUIT_TRACKING_ID` value and
the full row map the cursor scans. -/
structure JRow where
  trackingId : Int
  row : Row
  deriving DecidableEq, Repr

/-- Insert into a list sorted ascending by tracking id. -/
def insertByTrackingId (x : JRow) : List JRow → List JRow
  | [] => [x]
  | y :: ys =>
      if x.trackingId ≤ y.trackingId then x :: y :: ys else y :: insertByTrackingId x ys

/-- `ORDER BY CONDUIT_TRACKING_ID` over an in-memory journal. -/
def sortByTrackingId (l : List JRow) : List JRow :=
  l.foldr insertByTrackingId []

/-- The SQL issued by `cdcIterator.loadRows`:
`SELECT * FROM trackingTable [WHERE CONDUIT_TRACKING_ID > lastID]
ORDER BY CONDUIT_TRACKING_ID LIMIT batchSize`, the `WHERE` predicate
present exactly when the iterator holds a position. -/
def cdcQuery (journal : List JRow) (pos : Option Position) (batchSize : Nat) : List JRow :=
  let filtered :=
    match pos with
    | none => journal
    | some p => journal.filter (fun r => p.cdcLastID < r.trackingId)
  (sortByTrackingId filtered).take batchSize

/-- The mutable state of `cdcIterator` that `HasNext`/`loadRows` touch. -/
structure CdcState where
  rows : Option (Cursor JRow)
  position : Option Position
  batchSize : Nat
  trackingTable : String
  keys : List String
  deriving DecidableEq, Repr

/-- `cdcIterator.loadRows`: run `cdcQuery` against the journal and install
the result as the fresh cursor. -/
def cdcLoadRows (journal : List JRow) (s : CdcState) : CdcState :=
  { s with rows := some { current := none, pending := cdcQuery journal s.position s.batchSize } }

/-- `cdcIterator.HasNext`: `true` when the current cursor advances;
otherwise `loadRows` replaces the cursor and the method returns `false`
without looking at the freshly loaded page. -/
def cdcHasNext (journal : List JRow) (s : CdcState) : Bool × CdcState :=
  match s.rows with
  | some c =>
      let n := Cursor.next c
      if n.1 then (true, { s with rows := some n.2 })
      else (false, cdcLoadRows journal s)
  | none => (false, cdcLoadRows journal s)

/-- A cursor with no remaining rows (or a nil `rows` handle). -/
def cursorExhausted {α : Type} : Option (Cursor α) → Bool
  | none => true
  | some c => c.pending.isEmpty

/-- Claim C1 (amended): whenever the current cursor is exhausted, `HasNext`
loads the next journal page — `CONDUIT_TRACKING_ID > lastTrackingId`
(predicate omitted when no position is held), ordered by tracking id,
limited to `batchSize` — but returns `false` unconditionally; the freshly
loaded page is only observed by the next `HasNext` call, which returns
`true` if and only if that page is non-empty. -/
theorem cdc_hasNext_exhausted_loads_then_false (journal : List JRow) (s : CdcState)
    (h : cursorExhausted s.rows = true) :
    (cdcHasNext journal s).1 = false ∧
    (cdcHasNext journal s).2.rows =
      some { current := none, pending := cdcQuery journal s.position s.batchSize } ∧
    ((cdcHasNext journal (cdcHasNext journal s).2).1 = true ↔
      cdcQuery journal s.position s.batchSize ≠ []) := by
  obtain ⟨rows, pos, batch, tt, ks⟩ := s
  have hstep : cdcHasNext journal ⟨rows, pos, batch, tt, ks⟩ =
      (false, cdcLoadRows journal ⟨rows, pos, batch, tt, ks⟩) := by
    cases rows with
    | none => rfl
    | some c =>
        have hp : c.pending = [] := by
          simpa [cursorExhausted, List.isEmpty_iff] using h
        simp [cdcHasNext, Cursor.next, hp]
  refine ⟨by simp [hstep], by simp [hstep, cdcLoadRows], ?_⟩
  rw [hstep]
  cases hq : cdcQuery journal pos batch with
  | nil => simp [cdcLoadRows, cdcHasNext, hq, Cursor.next]
  | cons a l => simp [cdcLoadRows, cdcHasNext, hq, Cursor.next]

/-- Witness: an iterator with an exhausted cursor and no position over a
one-row journal. -/
theorem cdc_hasNext_exhausted_loads_then_false_witness :
    (cdcHasNext [⟨1, [(columnTrackingID, JValue.jInt 1)]⟩]
        ⟨some ⟨none, []⟩, none, 10, "CONDUIT_T_150405", ["ID"]⟩).1 = false ∧
    cdcQuery [⟨1, [(columnTrackingID, JValue.jInt 1)]⟩] none 10 ≠ [] := by
  refine ⟨(cdc_hasNext_exhausted_loads_then_false
    [⟨1, [(columnTrackingID, JValue.jInt 1)]⟩]
    ⟨some ⟨none, []⟩, none, 10, "CONDUIT_T_150405", ["ID"]⟩ rfl).1, ?_⟩
  decide

/-- Claim C1 counterexample: with an exhausted cursor and a non-empty
journal, the freshly loaded page is non-empty and yet `HasNext` returns
`false` — refuting "returns true if that freshly loaded page is
non-empty". -/
theorem cdc_hasNext_fresh_page_counterexample :
    cdcQuery [⟨1, [(columnTrackingID, JValue.jInt 1)]⟩] none 10 ≠ [] ∧
    (cdcHasNext [⟨1, [(columnTrackingID, JValue.jInt 1)]⟩]
        ⟨some ⟨none, []⟩, none, 10, "CONDUIT_T_150405", ["ID"]⟩).1 = false := by
  exact ⟨by decide, rfl⟩

/-- Errors of the iterator package. -/
inductive IterErr where
  | wrongTrackingIDType
  | wrongTrackingOperatorType
  | noKey (k : String)
  | unknownOperatorType
  | noOrderingColumn
  | cannotConvertToBytes (k : String)
  deriving DecidableEq, Repr

/-- Record operations of the connector SDK. -/
inductive Operation where
  | create
  | update
  | delete
  | snapshot
  deriving DecidableEq, Repr

/-- The record emitted by `Next`: position, operation, key map and
payload (the payload map stands for its JSON serialization; a delete
record carries none). -/
structure CdcRecord where
  position : Position
  operation : Operation
  key : Row
  payload : Option Row
  deriving DecidableEq, Repr

/-- Column types treated as text by `columntypes.TransformRow`. -/
def textTypes : List String :=
  ["CLOB", "VARCHAR", "NCLOB", "NVARCHAR", "ALPHANUM", "SHORTTEXT"]

/-- `columntypes.TransformRow`: nil values pass through; for columns of a
text type a `[]byte` value is decoded to a string and any other non-nil
representation fails; all other columns pass through. -/
def transformRow (columnTypes : List (String × String)) : Row → Except IterErr Row
  | [] => .ok []
  | (k, v) :: rest => do
      let tail ← transformRow columnTypes rest
      if v = JValue.jNull then
        .ok ((k, v) :: tail)
      else
        match List.lookup k columnTypes with
        | some t =>
            if t ∈ textTypes then
              match v with
              | JValue.jBytes b => .ok ((k, JValue.jStr b) :: tail)
              | _ => .error (.cannotConvertToBytes k)
            else .ok ((k, v) :: tail)
        | none => .ok ((k, v) :: tail)

/-- The key map built by `Next` from the configured key columns; missing
columns fail with `ErrNoKey`. -/
def buildKeysMap (keys : List String) (tr : Row) : Except IterErr Row :=
  match keys with
  | [] => .ok []
  | k :: ks =>
      match tr.lookup k with
      | none => .error (.noKey k)
      | some v => do
          let rest ← buildKeysMap ks tr
          .ok ((k, v) :: rest)

/-- `cdcIterator.Next`, applied to the row map scanned from the current
cursor row: transform column types, extract `CONDUIT_TRACKING_ID` (must
be `int64`) and `CONDUIT_OPERATION_TYPE` (must be `[]byte`), build the
CDC position, collect the key columns, delete the two tracking columns
from the payload, and map the operation type to the record constructor;
anything but INSERT/UPDATE/DELETE fails with `ErrUnknownOperatorType`. -/
def cdcNextRow (columnTypes : List (String × String)) (keys : List String)
    (trackingTable : String) (row : Row) : Except IterErr CdcRecord :=
  match transformRow columnTypes row with
  | .error e => .error e
  | .ok transformedRow =>
      match transformedRow.lookup columnTrackingID with
      | some (JValue.jInt id) =>
          match transformedRow.lookup columnOperationType with
          | some (JValue.jBytes opBytes) =>
              match buildKeysMap keys transformedRow with
              | .error e => .error e
              | .ok keysMap =>
                  let pos : Position :=
                    { iteratorType := Position.TypeCDC
                      snapshotLastProcessedVal := JValue.jNull
                      snapshotMaxValue := JValue.jNull
                      cdcLastID := id
                      trackingTableName := trackingTable }
                  let payloadRow :=
                    (transformedRow.eraseKey columnOperationType).eraseKey columnTrackingID
                  match opBytes with
                  | "INSERT" => .ok
                      { position := pos, operation := .create
                        key := keysMap, payload := some payloadRow }
                  | "UPDATE" => .ok
                      { position := pos, operation := .update
                        key := keysMap, payload := some payloadRow }
                  | "DELETE" => .ok
                      { position := pos, operation := .delete
                        key := keysMap, payload := none }
                  | _ => .error IterErr.unknownOperatorType
          | _ => .error IterErr.wrongTrackingOperatorType
      | _ => .error IterErr.wrongTrackingIDType

/-- Claim C4: CDC `Next` maps `opType` INSERT→create, UPDATE→update,
DELETE→delete (the delete record carries no payload), fails with
`ErrUnknownOperatorType` on any other operation type, and removes both
`CONDUIT_TRACKING_ID` and `CONDUIT_OPERATION_TYPE` from the payload
before serializing it. -/
theorem cdc_next_operation_mapping (ct : List (String × String)) (keys : List String)
    (tt : String) (row tr km : Row) (id : Int) (op : String)
    (htr : transformRow ct row = .ok tr)
    (hid : tr.lookup columnTrackingID = some (JValue.jInt id))
    (hop : tr.lookup columnOperationType = some (JValue.jBytes op))
    (hkm : buildKeysMap keys tr = .ok km) :
    (op = "INSERT" → cdcNextRow ct keys tt row = .ok
      { position := ⟨Position.TypeCDC, JValue.jNull, JValue.jNull, id, tt⟩
        operation := .create, key := km
        payload := some ((tr.eraseKey columnOperationType).eraseKey columnTrackingID) }) ∧
    (op = "UPDATE" → cdcNextRow ct keys tt row = .ok
      { position := ⟨Position.TypeCDC, JValue.jNull, JValue.jNull, id, tt⟩
        operation := .update, key := km
        payload := some ((tr.eraseKey columnOperationType).eraseKey columnTrackingID) }) ∧
    (op = "DELETE" → cdcNextRow ct keys tt row = .ok
      { position := ⟨Position.TypeCDC, JValue.jNull, JValue.jNull, id, tt⟩
        operation := .delete, key := km, payload := none }) ∧
    (op ≠ "INSERT" → op ≠ "UPDATE" → op ≠ "DELETE" →
      cdcNextRow ct keys tt row = .error IterErr.unknownOperatorType) ∧
    ((tr.eraseKey columnOperationType).eraseKey columnTrackingID).lookup
      columnTrackingID = none ∧
    ((tr.eraseKey columnOperationType).eraseKey columnTrackingID).lookup
      columnOperationType = none := by
  refine ⟨?_, ?_, ?_, ?_, Row.lookup_eraseKey_self _ _, ?_⟩
  · intro h
    subst h
    simp [cdcNextRow, htr, hid, hop, hkm]
  · intro h
    subst h
    simp [cdcNextRow, htr, hid, hop, hkm]
  · intro h
    subst h
    simp [cdcNextRow, htr, hid, hop, hkm]
  · intro h1 h2 h3
    simp [cdcNextRow, htr, hid, hop, hkm, h1, h2, h3]
  · rw [Row.lookup_eraseKey_ne _ _ _ (by decide)]
    exact Row.lookup_eraseKey_self _ _

/-- Witness: a one-key INSERT journal row is mapped to a create record
whose payload lost the two tracking columns. -/
theorem cdc_next_operation_mapping_witness :
    cdcNextRow [("CL_VARCHAR", "VARCHAR")] ["ID"] "CONDUIT_CLIENTS_150405"
      [("ID", JValue.jInt 1), ("CL_VARCHAR", JValue.jBytes "tr1"),
        (columnOperationType, JValue.jBytes "INSERT"), (columnTrackingID, JValue.jInt 5)] =
    .ok
      { position := ⟨Position.TypeCDC, JValue.jNull, JValue.jNull, 5, "CONDUIT_CLIENTS_150405"⟩
        operation := .create
        key := [("ID", JValue.jInt 1)]
        payload := some [("ID", JValue.jInt 1), ("CL_VARCHAR", JValue.jStr "tr1")] } :=
  (cdc_next_operation_mapping [("CL_VARCHAR", "VARCHAR")] ["ID"] "CONDUIT_CLIENTS_150405"
    [("ID", JValue.jInt 1), ("CL_VARCHAR", JValue.jBytes "tr1"),
      (columnOperationType, JValue.jBytes "INSERT"), (columnTrackingID, JValue.jInt 5)]
    [("ID", JValue.jInt 1), ("CL_VARCHAR", JValue.jStr "tr1"),
      (columnOperationType, JValue.jBytes "INSERT"), (columnTrackingID, JValue.jInt 5)]
    [("ID", JValue.jInt 1)] 5 "INSERT" rfl rfl rfl rfl).1 rfl

/-! ## Key selection (CombinedIterator.setKeys, source/iterator/iterator.go) -/

/-- The part of `columntypes.TableInfo` relevant here: the column types
and the primary-key column names discovered from the table. -/
structure TableInfo where
  primaryKeys : List String
  columnTypes : List (String × String)
  deriving DecidableEq, Repr

/-- `strings.ToUpper` on an identifier. -/
def toUpperId (s : String) : String :=
  String.mk (s.data.map Char.toUpper)

/-- The fields of `CombinedIterator` that `setKeys` reads and writes. -/
structure KeysState where
  keys : List String
  orderingColumn : String
  deriving DecidableEq, Repr

/-- `CombinedIterator.setKeys`: configured keys (uppercased) take first
priority; else, if the iterator's `keys` field is already non-empty, keep
it; else fall back to the ordering column. -/
def setKeys (c : KeysState) (cfgKeys : List String) : KeysState :=
  if cfgKeys.length > 0 then { c with keys := cfgKeys.map toUpperId }
  else if c.keys.length > 0 then c
  else { c with keys := [c.orderingColumn] }

/-- The key columns as fixed by `NewCombinedIterator`: the struct literal
leaves the `keys` field nil, `GetTableInfo` only stores `it.tableInfo`
(its `PrimaryKeys` are never copied into `keys`), and then
`it.setKeys(params.CfgKeys)` runs on that state. -/
def newCombinedIteratorKeys (cfgKeys : List String) (orderingColumn : String)
    (tableInfo : TableInfo) : List String :=
  (setKeys { keys := [], orderingColumn := orderingColumn } cfgKeys).keys

/-- Claim C3 (code bug): with no configured keys the iterator always
keys on the ordering column, whatever primary keys the table descriptor
discovered — the second-priority branch of `setKeys` tests a field that
is still nil at the call site, so discovered primary keys are never
used, contradicting the documented priority.  Configured keys do take
first priority, uppercased. -/
theorem combined_keys_ignore_table_primary_keys :
    (∀ (ti : TableInfo) (oc : String), newCombinedIteratorKeys [] oc ti = [oc]) ∧
    newCombinedIteratorKeys [] "COL" ⟨["PK_ID"], []⟩ = ["COL"] ∧
    newCombinedIteratorKeys ["id"] "COL" ⟨["PK_ID"], []⟩ = ["ID"] := by
  refine ⟨fun ti oc => rfl, rfl, by decide⟩

/-! ## Snapshot iterator (source/iterator/iterator.go, `snapshotIterator`) -/

/-- A source-table row: its ordering-column value (the model restricts
ordering columns to integers) and the full row map. -/
structure SRow where
  ordVal : Int
  row : Row
  deriving DecidableEq, Repr

/-- The snapshot fields of `position.Position` as the snapshot iterator
uses them in SQL comparisons: the last processed ordering value and the
frozen maximum (`none` models SQL NULL, the value scanned from
`SELECT MAX` over an empty table). -/
structure SnapPos where
  last : Int
  maxV : Option Int
  deriving DecidableEq, Repr

/-- SQL `x <= b`: unknown (not true) when the bound is NULL. -/
def sqlLeNull (x : Int) (b : Option Int) : Bool :=
  match b with
  | none => false
  | some v => x ≤ v

/-- Insert into a list sorted ascending by ordering value. -/
def insertByOrd (x : SRow) : List SRow → List SRow
  | [] => [x]
  | y :: ys => if x.ordVal ≤ y.ordVal then x :: y :: ys else y :: insertByOrd x ys

/-- `ORDER BY orderingColumn` over an in-memory table. -/
def sortByOrd (l : List SRow) : List SRow :=
  l.foldr insertByOrd []

theorem mem_insertByOrd {x y : SRow} {l : List SRow} (h : y ∈ insertByOrd x l) :
    y = x ∨ y ∈ l := by
  induction l with
  | nil => simpa [insertByOrd] using h
  | cons z zs ih =>
      by_cases hle : x.ordVal ≤ z.ordVal
      · simpa [insertByOrd, hle] using h
      · simp only [insertByOrd, if_neg hle, List.mem_cons] at h
        rcases h with h | h
        · exact Or.inr (by simp [h])
        · rcases ih h with h | h
          · exact Or.inl h
          · exact Or.inr (List.mem_cons_of_mem _ h)

theorem mem_sortByOrd {y : SRow} {l : List SRow} (h : y ∈ sortByOrd l) : y ∈ l := by
  induction l with
  | nil => simpa [sortByOrd] using h
  | cons z zs ih =>
      simp only [sortByOrd, List.foldr] at h
      rcases mem_insertByOrd h with h | h
      · simp [h]
      · exact List.mem_cons_of_mem _ (ih h)

/-- The SQL issued by `snapshotIterator.loadRows`:
`SELECT * FROM table ORDER BY orderingColumn LIMIT batchSize`, with
`WHERE orderingColumn > last AND orderingColumn <= maxValue` added only
when the iterator holds a position — with a nil position the query
carries no bounds at all. -/
def snapQuery (table : List SRow) (pos : Option SnapPos) (batchSize : Nat) : List SRow :=
  let filtered :=
    match pos with
    | none => table
    | some p => table.filter (fun r => p.last < r.ordVal && sqlLeNull r.ordVal p.maxV)
  (sortByOrd filtered).take batchSize

/-- The mutable state of `snapshotIterator`. -/
structure SnapState where
  rows : Option (Cursor SRow)
  position : Option SnapPos
  maxValue : Option Int
  batchSize : Nat
  deriving DecidableEq, Repr

/-- `snapshotIterator.loadRows` against the current table contents. -/
def snapLoadRows (table : List SRow) (s : SnapState) : SnapState :=
  { s with rows := some { current := none, pending := snapQuery table s.position s.batchSize } }

/-- `SELECT MAX(orderingColumn) FROM table`: NULL on an empty table. -/
def maxOrd (table : List SRow) : Option Int :=
  table.foldl
    (fun acc r =>
      match acc with
      | none => some r.ordVal
      | some m => some (max m r.ordVal))
    none

/-- `newSnapshotIterator`: `loadRows` runs first (against the table at
open time); then the frozen maximum is adopted from the position if one
exists, else computed by `setMaxValue`. -/
def newSnapshotIterator (table : List SRow) (pos : Option SnapPos) (batchSize : Nat) :
    SnapState :=
  let s1 := snapLoadRows table
    { rows := none, position := pos, maxValue := none, batchSize := batchSize }
  match pos with
  | some p => { s1 with maxValue := p.maxV }
  | none => { s1 with maxValue := maxOrd table }

/-- `snapshotIterator.HasNext`: advance the current cursor; if it is
exhausted, reload and check the fresh batch before answering. -/
def snapHasNext (table : List SRow) (s : SnapState) : Bool × SnapState :=
  let firstTry : Option (Bool × SnapState) :=
    match s.rows with
    | some c =>
        let n := Cursor.next c
        if n.1 then some (true, { s with rows := some n.2 }) else none
    | none => none
  match firstTry with
  | some res => res
  | none =>
      let c2 : Cursor SRow :=
        { current := none, pending := snapQuery table s.position s.batchSize }
      let n2 := Cursor.next c2
      (n2.1, { snapLoadRows table s with rows := some n2.2 })

/-- `snapshotIterator.Next` reduced to what Claim C2 needs: scan the row
the cursor stands on and advance the stored position to
`{last := row's ordering value, maxV := maxValue}` (key selection and
payload serialization behave as in `cdcNextRow`). -/
def snapNext (s : SnapState) : Option (SRow × SnapState) :=
  match s.rows with
  | some c =>
      match c.current with
      | some r =>
          some (r, { s with position := some { last := r.ordVal, maxV := s.maxValue } })
      | none => none
  | none => none

/-- Claim C2 (code bug): pages fetched with a position do respect both
bounds, but with a nil position `loadRows` omits the upper bound as well
as the lower one; consequently, after opening on an empty table (frozen
maximum NULL), the first `HasNext` reloads with no bounds and a row
inserted after open — which does not satisfy
`orderingColumn <= maxOrderingValue` — is emitted as snapshot output. -/
theorem snapshot_first_page_unbounded_bug :
    (∀ (table : List SRow) (p : SnapPos) (n : Nat) (r : SRow),
      r ∈ snapQuery table (some p) n →
        p.last < r.ordVal ∧ sqlLeNull r.ordVal p.maxV = true) ∧
    (newSnapshotIterator [] none 10).maxValue = none ∧
    snapQuery [⟨5, [("ID", JValue.jInt 5)]⟩] none 10 = [⟨5, [("ID", JValue.jInt 5)]⟩] ∧
    sqlLeNull 5 (newSnapshotIterator [] none 10).maxValue = false ∧
    (snapHasNext [⟨5, [("ID", JValue.jInt 5)]⟩] (newSnapshotIterator [] none 10)).1 = true ∧
    (snapNext (snapHasNext [⟨5, [("ID", JValue.jInt 5)]⟩]
        (newSnapshotIterator [] none 10)).2).map (fun e => e.1) =
      some ⟨5, [("ID", JValue.jInt 5)]⟩ := by
  refine ⟨?_, rfl, by decide, rfl, rfl, by decide⟩
  intro table p n r hr
  have hmem : r ∈ sortByOrd (table.filter
      (fun q => p.last < q.ordVal && sqlLeNull q.ordVal p.maxV)) :=
    List.take_subset _ _ hr
  have hfil := mem_sortByOrd hmem
  have := List.of_mem_filter hfil
  simpa using this

/-- Witness: a bounded page query only returns rows inside the bounds. -/
theorem snapshot_first_page_unbounded_bug_witness :
    (0 : Int) < 1 ∧ sqlLeNull 1 (some 3) = true :=
  snapshot_first_page_unbounded_bug.1 [⟨1, []⟩] ⟨0, some 3⟩ 5 ⟨1, []⟩ (by decide)

/-! ## Combined iterator (source/iterator/iterator.go, `CombinedIterator`) -/

/-- The event of `snapshot.CloseRows()` being invoked during the
snapshot-to-CDC handoff. -/
inductive CombEvent where
  | closedSnapshotRows
  deriving DecidableEq, Repr

/-- `newCDCIterator`: store the parameters and run `loadRows` once (the
reclaim worker it also starts is modelled by `deleteRows` below). -/
def newCDCIterator (journal : List JRow) (pos : Option Position) (batchSize : Nat)
    (trackingTable : String) (keys : List String) : CdcState :=
  cdcLoadRows journal
    { rows := none, position := pos, batchSize := batchSize
      trackingTable := trackingTable, keys := keys }

/-- The children and configuration of `CombinedIterator`. -/
structure CombState where
  snapshot : Option SnapState
  cdc : Option CdcState
  batchSize : Nat
  trackingTable : String
  keys : List String
  deriving DecidableEq, Repr

/-- `CombinedIterator.switchToCDCIterator`: close the snapshot cursor,
release the snapshot child, and construct the CDC child with a nil
position. -/
def switchToCDCIterator (journal : List JRow) (s : CombState) : CombState :=
  { s with
      snapshot := none
      cdc := some (newCDCIterator journal none s.batchSize s.trackingTable s.keys) }

/-- `CombinedIterator.HasNext`: delegate to the snapshot child while it
has more; on "no more" switch to CDC (closing the snapshot cursor, the
recorded event) and return false; with no snapshot child delegate to the
CDC child; with neither child return false. -/
def combinedHasNext (table : List SRow) (journal : List JRow) (s : CombState) :
    Bool × CombState × List CombEvent :=
  match s.snapshot with
  | some sn =>
      let r := snapHasNext table sn
      if r.1 then (true, { s with snapshot := some r.2 }, [])
      else (false, switchToCDCIterator journal { s with snapshot := some r.2 },
        [.closedSnapshotRows])
  | none =>
      match s.cdc with
      | some c =>
          let r := cdcHasNext journal c
          (r.1, { s with cdc := some r.2 }, [])
      | none => (false, s, [])

/-- Claim C6: when the snapshot child reports no more rows, the combined
`HasNext` closes the snapshot cursor, releases the snapshot child,
constructs the CDC iterator with no prior position, and returns false;
the resulting state holds only the CDC child (never both children), and
the immediately following `HasNext` call delegates to that CDC
iterator. -/
theorem combined_hasNext_switch_to_cdc (table : List SRow) (journal : List JRow)
    (s : CombState) (sn : SnapState)
    (hsn : s.snapshot = some sn)
    (hnomore : (snapHasNext table sn).1 = false) :
    (combinedHasNext table journal s).1 = false ∧
    (combinedHasNext table journal s).2.1.snapshot = none ∧
    (combinedHasNext table journal s).2.1.cdc =
      some (newCDCIterator journal none s.batchSize s.trackingTable s.keys) ∧
    (newCDCIterator journal none s.batchSize s.trackingTable s.keys).position = none ∧
    (combinedHasNext table journal s).2.2 = [CombEvent.closedSnapshotRows] ∧
    (combinedHasNext table journal (combinedHasNext table journal s).2.1).1 =
      (cdcHasNext journal
        (newCDCIterator journal none s.batchSize s.trackingTable s.keys)).1 := by
  obtain ⟨snap, cdc0, n, tt, ks⟩ := s
  cases hsn
  refine ⟨?_, ?_, ?_, rfl, ?_, ?_⟩ <;>
    simp [combinedHasNext, hnomore, switchToCDCIterator]

/-- Witness: handoff on an empty table and empty journal. -/
theorem combined_hasNext_switch_to_cdc_witness :
    (combinedHasNext [] []
      ⟨some (newSnapshotIterator [] none 1), none, 1, "CONDUIT_T_150405", ["ID"]⟩).1 =
      false ∧
    (combinedHasNext [] []
      ⟨some (newSnapshotIterator [] none 1), none, 1, "CONDUIT_T_150405", ["ID"]⟩).2.1.cdc =
      some (newCDCIterator [] none 1 "CONDUIT_T_150405" ["ID"]) := by
  have h := combined_hasNext_switch_to_cdc [] []
    ⟨some (newSnapshotIterator [] none 1), none, 1, "CONDUIT_T_150405", ["ID"]⟩
    (newSnapshotIterator [] none 1) rfl rfl
  exact ⟨h.1, h.2.2.1⟩

/-! ## Destination writer (writer.go, `Writer.Insert` / `Update` / `Delete`) -/

/-- An `sdk.Data` value as `structurizeData` discriminates it: nil data,
non-nil data whose `Bytes()` is empty, bytes that unmarshal into a JSON
object, or bytes that fail to unmarshal. -/
inductive WData where
  | wNil
  | wEmptyBytes
  | wObj (r : Row)
  | wMalformed
  deriving DecidableEq, Repr

/-- Errors of the writer package (plus the JSON/codec errors it
propagates). -/
inductive WErr where
  | noPayload
  | noKey
  | unmarshalErr
  | convertErr
  deriving DecidableEq, Repr

/-- The parameterized SQL statements the writer executes. -/
inductive SqlStmt where
  | insertStmt (table : String) (payload : Row)
  | updateStmt (table : String) (keys payload : Row)
  | deleteStmt (table : String) (keys : Row)
  deriving DecidableEq, Repr

/-- A record as the writer sees it: payload-after data, key data, and the
optional `saphana.table` metadata entry. -/
structure WRecord where
  payloadAfter : WData
  key : WData
  metadataTable : Option String
  deriving DecidableEq, Repr

/-- `Writer.structurizeData`: nil data or zero-length bytes yield a nil
structured map with no error; otherwise `json.Unmarshal` yields the
object or fails. -/
def structurizeData (d : WData) : Except WErr (Option Row) :=
  match d with
  | .wNil => .ok none
  | .wEmptyBytes => .ok none
  | .wObj r => .ok (some r)
  | .wMalformed => .error .unmarshalErr

/-- `Writer.getTableName`: the `saphana.table` metadata entry if present,
else the configured default table. -/
def getTableName (defaultTable : String) (meta : Option String) : String :=
  match meta with
  | some t => t
  | none => defaultTable

/-- `Writer.Insert`: structurize the payload; a nil structured payload is
`ErrNoPayload`; convert the values (`columntypes.ConvertStructureData`,
passed in as `convert` since no theorem here depends on its internals and
it executes no SQL); then execute the INSERT.  The second component lists
the SQL statements executed. -/
def writerInsert (convert : Row → Except WErr Row) (defaultTable : String)
    (record : WRecord) : Except WErr Unit × List SqlStmt :=
  let tableName := getTableName defaultTable record.metadataTable
  match structurizeData record.payloadAfter with
  | .error e => (.error e, [])
  | .ok none => (.error .noPayload, [])
  | .ok (some payload) =>
      match convert payload with
      | .error e => (.error e, [])
      | .ok converted => (.ok (), [.insertStmt tableName converted])

/-- `Writer.Update`: payload check (`ErrNoPayload` on nil), conversion,
then key check — `ErrNoKey` when the structurized key has length zero —
then the UPDATE. -/
def writerUpdate (convert : Row → Except WErr Row) (defaultTable : String)
    (record : WRecord) : Except WErr Unit × List SqlStmt :=
  let tableName := getTableName defaultTable record.metadataTable
  match structurizeData record.payloadAfter with
  | .error e => (.error e, [])
  | .ok none => (.error .noPayload, [])
  | .ok (some payload) =>
      match convert payload with
      | .error e => (.error e, [])
      | .ok converted =>
          match structurizeData record.key with
          | .error e => (.error e, [])
          | .ok keysOpt =>
              let keys := keysOpt.getD []
              if keys.length = 0 then (.error .noKey, [])
              else (.ok (), [.updateStmt tableName keys converted])

/-- `Writer.Delete`: structurize the key; `ErrNoKey` when it has length
zero; else execute the DELETE. -/
def writerDelete (defaultTable : String) (record : WRecord) :
    Except WErr Unit × List SqlStmt :=
  let tableName := getTableName defaultTable record.metadataTable
  match structurizeData record.key with
  | .error e => (.error e, [])
  | .ok keysOpt =>
      let keys := keysOpt.getD []
      if keys.length = 0 then (.error .noKey, [])
      else (.ok (), [.deleteStmt tableName keys])

/-- Claim C8 (amended): `Insert` and `Update` fail with `ErrNoPayload` —
executing no SQL — when the record's payload is nil or has zero-length
bytes (the cases `structurizeData` maps to a nil structured map); a
present-but-empty JSON object payload is not rejected.  `Update` and
`Delete` fail with `ErrNoKey`, executing no SQL, when the key is nil,
zero-length, or decodes to an empty object. -/
theorem writer_empty_payload_and_key_checks (convert : Row → Except WErr Row)
    (defaultTable : String) (record : WRecord) :
    ((record.payloadAfter = .wNil ∨ record.payloadAfter = .wEmptyBytes) →
      writerInsert convert defaultTable record = (.error .noPayload, []) ∧
      writerUpdate convert defaultTable record = (.error .noPayload, [])) ∧
    ((record.key = .wNil ∨ record.key = .wEmptyBytes ∨ record.key = .wObj []) →
      writerDelete defaultTable record = (.error .noKey, []) ∧
      (∀ (p conv : Row), record.payloadAfter = .wObj p → convert p = .ok conv →
        writerUpdate convert defaultTable record = (.error .noKey, []))) := by
  obtain ⟨pl, ky, mt⟩ := record
  constructor
  · rintro (h | h) <;> cases h <;> exact ⟨rfl, rfl⟩
  · rintro (h | h | h) <;> cases h <;>
      refine ⟨rfl, ?_⟩ <;>
      · intro p conv hp hc
        cases hp
        simp [writerUpdate, structurizeData, hc]

/-- Witness: a record with nil payload and nil key is rejected by all
three write paths without SQL. -/
theorem writer_empty_payload_and_key_checks_witness :
    writerInsert Except.ok "CLIENTS" ⟨.wNil, .wNil, none⟩ = (.error .noPayload, []) ∧
    writerDelete "CLIENTS" ⟨.wNil, .wNil, none⟩ = (.error .noKey, []) := by
  have h := writer_empty_payload_and_key_checks Except.ok "CLIENTS" ⟨.wNil, .wNil, none⟩
  exact ⟨(h.1 (Or.inl rfl)).1, (h.2 (Or.inl rfl)).1⟩

/-- Claim C8 counterexample: a record whose payload is the empty JSON
object `{}` has an empty structured payload, yet `Update` does not fail
with `ErrNoPayload`: it succeeds and executes an UPDATE statement. -/
theorem writer_update_empty_object_payload_counterexample :
    writerUpdate Except.ok "CLIENTS"
      ⟨.wObj [], .wObj [("ID", JValue.jInt 1)], none⟩ =
      (.ok (), [.updateStmt "CLIENTS" [("ID", JValue.jInt 1)] []]) ∧
    (Except.ok () : Except WErr Unit) ≠ .error .noPayload :=
  ⟨rfl, fun h => Except.noConfusion h⟩

/-! ## Reclaim drain (source/iterator/cdc.go, `cdcIterator.deleteRows`) -/

/-- Outcome of the delete transaction as decided by the database:
`Begin`, `ExecContext` or `Commit` may fail, or all three succeed. -/
inductive TxOutcome where
  | beginErr
  | execErr
  | commitErr
  | txOk
  deriving DecidableEq, Repr

/-- Errors surfaced by `deleteRows` (each wraps the driver error). -/
inductive RErr where
  | beginFailed
  | execFailed
  | commitFailed
  deriving DecidableEq, Repr

/-- The SQL the reclaim drain executes:
`DELETE FROM trackingTable WHERE CONDUIT_TRACKING_ID IN (ids)`. -/
inductive ReclaimSql where
  | deleteIn (ids : List Int)
  deriving DecidableEq, Repr

/-- The state `deleteRows` touches: the mutex-guarded pending-ack buffer
`idsForRemoving` and the journal (tracking table) contents. -/
structure ReclaimState where
  idsForRemoving : List Int
  journal : List JRow
  deriving DecidableEq, Repr

/-- `cdcIterator.deleteRows`: under the mutex, return immediately when
the buffer is empty (no SQL); otherwise begin a transaction, execute the
batched DELETE, commit, and only then reset the buffer; on any failure
the deferred rollback leaves journal and buffer unchanged.  The third
component lists the DELETE statements executed. -/
def deleteRows (outcome : TxOutcome) (st : ReclaimState) :
    Except RErr Unit × ReclaimState × List ReclaimSql :=
  if st.idsForRemoving.length = 0 then (.ok (), st, [])
  else
    match outcome with
    | .beginErr => (.error .beginFailed, st, [])
    | .execErr => (.error .execFailed, st, [.deleteIn st.idsForRemoving])
    | .commitErr => (.error .commitFailed, st, [.deleteIn st.idsForRemoving])
    | .txOk =>
        (.ok (),
          { idsForRemoving := []
            journal := st.journal.filter
              (fun r => !(st.idsForRemoving.contains r.trackingId)) },
          [.deleteIn st.idsForRemoving])

/-- Claim C10: the reclaim drain is atomic over the pending-ack buffer:
no SQL is issued on an empty buffer; the buffer is reset exactly when the
transaction commits; on a begin, execute or commit error buffer and
journal are unchanged; hence every acknowledged tracking id either has
its journal row deleted or remains buffered for the next drain. -/
theorem reclaim_deleteRows_atomic (o : TxOutcome) (st : ReclaimState) :
    (st.idsForRemoving = [] → deleteRows o st = (.ok (), st, [])) ∧
    (st.idsForRemoving ≠ [] →
      ((deleteRows o st).2.1.idsForRemoving = [] ↔ o = .txOk) ∧
      (o ≠ .txOk → (deleteRows o st).2.1 = st) ∧
      (∀ id, id ∈ st.idsForRemoving →
        (∀ r, r ∈ (deleteRows o st).2.1.journal → r.trackingId ≠ id) ∨
        id ∈ (deleteRows o st).2.1.idsForRemoving)) := by
  constructor
  · intro h
    simp [deleteRows, h]
  · intro h
    have hlen : ¬st.idsForRemoving.length = 0 :=
      fun e => h (List.length_eq_zero.mp e)
    cases o with
    | beginErr =>
        refine ⟨by simp [deleteRows, hlen, h], fun _ => by simp [deleteRows, hlen], ?_⟩
        intro id hone
        exact Or.inr (by simpa [deleteRows, hlen] using hone)
    | execErr =>
        refine ⟨by simp [deleteRows, hlen, h], fun _ => by simp [deleteRows, hlen], ?_⟩
        intro id hone
        exact Or.inr (by simpa [deleteRows, hlen] using hone)
    | commitErr =>
        refine ⟨by simp [deleteRows, hlen, h], fun _ => by simp [deleteRows, hlen], ?_⟩
        intro id hone
        exact Or.inr (by simpa [deleteRows, hlen] using hone)
    | txOk =>
        refine ⟨by simp [deleteRows, hlen], fun hne => absurd rfl hne, ?_⟩
        intro id hone
        left
        intro r hr
        simp only [deleteRows, if_neg hlen] at hr
        have hpred := List.of_mem_filter hr
        have hnotin : r.trackingId ∉ st.idsForRemoving := by
          simpa using hpred
        intro he
        exact hnotin (he ▸ hone)

/-- Witness: a successful drain over a one-id buffer empties the buffer
and removes the journal row. -/
theorem reclaim_deleteRows_atomic_witness :
    (deleteRows .txOk ⟨[1], [⟨1, []⟩]⟩).2.1.idsForRemoving = [] ∧
    (deleteRows .txOk ⟨[1], [⟨1, []⟩]⟩).2.1.journal = [] := by
  have h := (reclaim_deleteRows_atomic .txOk ⟨[1], [⟨1, []⟩]⟩).2 (by decide)
  exact ⟨h.1.mpr rfl, rfl⟩

/-- Claim C5: the position codec round-trips: for every position of the
snapshot shape or the CDC shape, parsing the serialized form yields the
same position back; parsing a nil position yields nil with no error; and
parsing a token whose tag is neither the snapshot tag nor the CDC tag
fails with `ErrUnknownIteratorType`. -/
theorem position_codec_roundtrip (p : Position) :
    (p.iteratorType = Position.TypeSnapshot ∨ p.iteratorType = Position.TypeCDC →
      parseSDKPosition (some p.convertToSDKPosition) = .ok (some p)) ∧
    parseSDKPosition none = .ok none ∧
    (p.iteratorType ≠ Position.TypeSnapshot ∧ p.iteratorType ≠ Position.TypeCDC →
      parseSDKPosition (some p.convertToSDKPosition) =
        .error (.unknownIteratorType p.iteratorType)) := by
  refine ⟨?_, rfl, ?_⟩
  · intro h
    simp [parseSDKPosition, Position.convertToSDKPosition, decodeStrField,
      decodeIntField, decodeAnyField, List.lookup, bind, Except.bind, h]
  · intro h
    simp [parseSDKPosition, Position.convertToSDKPosition, decodeStrField,
      decodeIntField, decodeAnyField, List.lookup, bind, Except.bind, h.1, h.2]

/-- Witness for the round-trip theorem at a concrete CDC-shaped position. -/
theorem position_codec_roundtrip_witness :
    parseSDKPosition (some (Position.convertToSDKPosition
      { iteratorType := Position.TypeCDC
        snapshotLastProcessedVal := JValue.jNull
        snapshotMaxValue := JValue.jNull
        cdcLastID := 7
        trackingTableName := "CONDUIT_CLIENTS_150405" })) =
      .ok (some
      { iteratorType := Position.TypeCDC
        snapshotLastProcessedVal := JValue.jNull
        snapshotMaxValue := JValue.jNull
        cdcLastID := 7
        trackingTableName := "CONDUIT_CLIENTS_150405" }) :=
  (position_codec_roundtrip _).1 (Or.inr rfl)

/-- Claim C9: parsing a nil opaque position returns a nil parsed position
with a nil error, and the combined iterator's `Ack` then dereferences that
nil pointer unconditionally: `Ack` on a nil position reaches the nil
dereference rather than being a safe no-op. -/
theorem ack_nil_position_dereferences_nil :
    parseSDKPosition none = .ok none ∧ combinedAck none = .panicNilDeref :=
  ⟨rfl, rfl⟩

end SapHana
